import Mathlib

/-
Verification of the realtime session layer of the sociallink dashboard client.

Part 1 models the axios ApiClient (src/unnamed/part_005): the request
interceptor that attaches the Bearer access token from localStorage, and the
response interceptor that, on a 401 response of a not-yet-retried request,
marks the request retried, posts to the refresh endpoint with the stored
refresh token, stores the new access token and resends the request through the
client; on refresh failure it removes both tokens, redirects to /auth and
rejects with the refresh error.

Part 2 models the useWebSocket hook (src/frontend/src/hooks/useWebSocket.ts)
as an event system whose handlers carry the values their JavaScript closures
captured at creation time.
-/

namespace ApiClient

/-- Result of one underlying HTTP send, as the axios response interceptor
observes it: a fulfilled response with a body, a rejected response carrying a
status code, or a rejection with no response (network failure). -/
inductive SendResult where
  | ok (body : String)
  | status (code : Nat)
  | netErr
deriving DecidableEq

/-- Body of a successful refresh response. The source reads only the access
field of response.data; the refresh field records a rotation the server may
have performed, which the source never reads. -/
structure RefreshResp where
  access : String
  refresh : Option String
deriving DecidableEq

/-- The localStorage slots access_token and refresh_token. -/
structure Store where
  access : Option String
  refresh : Option String
deriving DecidableEq

/-- A request descriptor: target path, current Authorization header, and the
mutable retry marker written on the axios config object. On a fresh
request the marker field is absent, modelled as false. -/
structure Req where
  target : String
  authHeader : Option String
  retryFlag : Bool
deriving DecidableEq

/-- How a call of the client settles. The sessionExpired constructor models
the refresh-failure path of the response interceptor: both tokens removed,
location set to /auth, and the promise rejected with the refresh error. A
rejection that re-raises the original axios error with a status is httpError;
a rejection with no response at all is networkError. -/
inductive Outcome where
  | ok (body : String)
  | httpError (code : Nat)
  | networkError
  | sessionExpired
deriving DecidableEq

/-- Everything observable about one client call: how it settled, the final
token store, every underlying send in order (target and Authorization header),
how many refresh posts were issued, and whether the browser was redirected to
the /auth entry point. -/
structure RunResult where
  outcome : Outcome
  store : Store
  sends : List (String × Option String)
  refreshCalls : Nat
  redirected : Bool
deriving DecidableEq

/-- The request interceptor: if localStorage holds an access token, set the
Authorization header to Bearer of it; otherwise leave the header unchanged. -/
def requestHeader (st : Store) (req : Req) : Option String :=
  match st.access with
  | some t => some ("Bearer " ++ t)
  | none => req.authHeader

/-- One client call through both interceptors. On a 401 response of a request
whose retry marker is unset, the response interceptor sets the marker, posts
the stored refresh token to the refresh endpoint; on refresh success it stores
the new access token, rewrites the Authorization header and resends the
request through the client (hence the recursive call); on refresh failure it
clears both tokens, redirects and rejects with the refresh error. Every other
rejection is passed through. -/
def clientRun (server : String → Option String → SendResult)
    (refreshServer : Option String → Option RefreshResp)
    (st : Store) (req : Req) : RunResult :=
  let hdr := requestHeader st req
  match server req.target hdr with
  | SendResult.ok b =>
      { outcome := Outcome.ok b, store := st, sends := [(req.target, hdr)],
        refreshCalls := 0, redirected := false }
  | SendResult.netErr =>
      { outcome := Outcome.networkError, store := st, sends := [(req.target, hdr)],
        refreshCalls := 0, redirected := false }
  | SendResult.status code =>
      if h : code = 401 ∧ req.retryFlag = false then
        match refreshServer st.refresh with
        | some rr =>
            let st2 : Store := { access := some rr.access, refresh := st.refresh }
            let res := clientRun server refreshServer st2
              { target := req.target, authHeader := some ("Bearer " ++ rr.access),
                retryFlag := true }
            { res with sends := (req.target, hdr) :: res.sends,
                       refreshCalls := res.refreshCalls + 1 }
        | none =>
            { outcome := Outcome.sessionExpired,
              store := { access := none, refresh := none },
              sends := [(req.target, hdr)], refreshCalls := 1, redirected := true }
      else
        { outcome := Outcome.httpError code, store := st, sends := [(req.target, hdr)],
          refreshCalls := 0, redirected := false }
termination_by (if req.retryFlag then 0 else 1)
decreasing_by simp [h.2]

/-- A request resent with its retry marker set can never refresh again: the
response interceptor passes every rejection through unchanged. -/
theorem clientRun_retried_refreshCalls (server : String → Option String → SendResult)
    (refreshServer : Option String → Option RefreshResp) (st : Store) (req : Req)
    (h : req.retryFlag = true) :
    (clientRun server refreshServer st req).refreshCalls = 0 := by
  rw [clientRun]
  cases server req.target (requestHeader st req) <;> simp [h]

/-- A request resent with its retry marker set leaves the token store
unchanged. -/
theorem clientRun_retried_store (server : String → Option String → SendResult)
    (refreshServer : Option String → Option RefreshResp) (st : Store) (req : Req)
    (h : req.retryFlag = true) :
    (clientRun server refreshServer st req).store = st := by
  rw [clientRun]
  cases server req.target (requestHeader st req) <;> simp [h]

/-- A request resent with its retry marker set performs exactly one send. -/
theorem clientRun_retried_sends (server : String → Option String → SendResult)
    (refreshServer : Option String → Option RefreshResp) (st : Store) (req : Req)
    (h : req.retryFlag = true) :
    (clientRun server refreshServer st req).sends =
      [(req.target, requestHeader st req)] := by
  rw [clientRun]
  cases server req.target (requestHeader st req) <;> simp [h]

/-- A retried request that is rejected again with a status is passed through
as that very http error, whatever the status class. -/
theorem clientRun_retried_outcome (server : String → Option String → SendResult)
    (refreshServer : Option String → Option RefreshResp) (st : Store) (req : Req)
    (c : Nat) (h : req.retryFlag = true)
    (hs : server req.target (requestHeader st req) = SendResult.status c) :
    (clientRun server refreshServer st req).outcome = Outcome.httpError c := by
  rw [clientRun, hs]
  simp [h]

/-- Unfolding lemma for the interesting branch: fresh request, 401 response,
refresh answered. -/
theorem clientRun_401_refresh_ok (server : String → Option String → SendResult)
    (refreshServer : Option String → Option RefreshResp) (st : Store) (req : Req)
    (rr : RefreshResp)
    (hfresh : req.retryFlag = false)
    (h401 : server req.target (requestHeader st req) = SendResult.status 401)
    (href : refreshServer st.refresh = some rr) :
    clientRun server refreshServer st req =
      { clientRun server refreshServer
          { access := some rr.access, refresh := st.refresh }
          { target := req.target, authHeader := some ("Bearer " ++ rr.access),
            retryFlag := true } with
        sends := (req.target, requestHeader st req) ::
          (clientRun server refreshServer
            { access := some rr.access, refresh := st.refresh }
            { target := req.target, authHeader := some ("Bearer " ++ rr.access),
              retryFlag := true }).sends,
        refreshCalls := (clientRun server refreshServer
            { access := some rr.access, refresh := st.refresh }
            { target := req.target, authHeader := some ("Bearer " ++ rr.access),
              retryFlag := true }).refreshCalls + 1 } := by
  conv_lhs => rw [clientRun]
  rw [h401]
  simp [hfresh, href]

/-- The header the request interceptor attaches to the resend after the store
was updated with the refreshed access token. -/
theorem requestHeader_after_refresh (rr : RefreshResp) (r : Option String) (req : Req) :
    requestHeader { access := some rr.access, refresh := r } req =
      some ("Bearer " ++ rr.access) := rfl

/-- Scenario server: rejects the old token with 401, accepts anything else. -/
def demoServerA : String → Option String → SendResult := fun _ hdr =>
  if hdr = some "Bearer A1" then SendResult.status 401 else SendResult.ok "ok"

/-- Server that rejects every request with 401, whatever the header. -/
def demoServer401 : String → Option String → SendResult := fun _ _ =>
  SendResult.status 401

/-- Refresh endpoint that exchanges the stored refresh token R1 for access
token A2 without rotating the refresh token. -/
def demoRefreshOk : Option String → Option RefreshResp := fun r =>
  if r = some "R1" then some { access := "A2", refresh := none } else none

/-- Refresh endpoint that exchanges R1 for access token A2 and also returns a
rotated refresh token R2 in its response body. -/
def demoRefreshRotate : Option String → Option RefreshResp := fun r =>
  if r = some "R1" then some { access := "A2", refresh := some "R2" } else none

/-- Refresh endpoint that always fails. -/
def demoRefreshFail : Option String → Option RefreshResp := fun _ => none

/-- Initial token store of the scenarios. -/
def demoStore : Store := { access := some "A1", refresh := some "R1" }

/-- A fresh GET request. -/
def demoReq : Req := { target := "/x", authHeader := none, retryFlag := false }

/-- Claim C2: a request whose first send is rejected with a single 401 and
whose refresh succeeds resolves to the response of the retried send, the
underlying send is observed exactly twice (the retry carrying the refreshed
access token), and the store afterwards holds the refreshed access token. -/
theorem single_retry_success (server : String → Option String → SendResult)
    (refreshServer : Option String → Option RefreshResp) (st : Store) (req : Req)
    (rr : RefreshResp) (b : String)
    (hfresh : req.retryFlag = false)
    (h401 : server req.target (requestHeader st req) = SendResult.status 401)
    (href : refreshServer st.refresh = some rr)
    (hretry : server req.target (some ("Bearer " ++ rr.access)) = SendResult.ok b) :
    (clientRun server refreshServer st req).outcome = Outcome.ok b ∧
    (clientRun server refreshServer st req).sends =
      [(req.target, requestHeader st req),
       (req.target, some ("Bearer " ++ rr.access))] ∧
    (clientRun server refreshServer st req).refreshCalls = 1 ∧
    (clientRun server refreshServer st req).store.access = some rr.access := by
  rw [clientRun_401_refresh_ok server refreshServer st req rr hfresh h401 href]
  rw [clientRun]
  rw [requestHeader_after_refresh, hretry]
  simp

/-- Concrete instance of single_retry_success: scenario A of the spec. -/
theorem single_retry_success_witness :
    (clientRun demoServerA demoRefreshOk demoStore demoReq).outcome = Outcome.ok "ok" ∧
    (clientRun demoServerA demoRefreshOk demoStore demoReq).sends =
      [("/x", some "Bearer A1"), ("/x", some "Bearer A2")] ∧
    (clientRun demoServerA demoRefreshOk demoStore demoReq).refreshCalls = 1 ∧
    (clientRun demoServerA demoRefreshOk demoStore demoReq).store.access = some "A2" :=
  single_retry_success demoServerA demoRefreshOk demoStore demoReq
    { access := "A2", refresh := none } "ok" rfl (by decide) (by decide) (by decide)

/-- General facts about a fresh request rejected 401 whose refresh succeeds
but whose retry is rejected 401 again: the second error is passed through as
an http error, there is exactly one refresh call and exactly two sends. -/
theorem clientRun_double401_facts (server : String → Option String → SendResult)
    (refreshServer : Option String → Option RefreshResp) (st : Store) (req : Req)
    (rr : RefreshResp)
    (hfresh : req.retryFlag = false)
    (h401 : server req.target (requestHeader st req) = SendResult.status 401)
    (href : refreshServer st.refresh = some rr)
    (hretry : server req.target (some ("Bearer " ++ rr.access)) =
      SendResult.status 401) :
    (clientRun server refreshServer st req).outcome = Outcome.httpError 401 ∧
    (clientRun server refreshServer st req).refreshCalls = 1 ∧
    (clientRun server refreshServer st req).sends.length = 2 := by
  rw [clientRun_401_refresh_ok server refreshServer st req rr hfresh h401 href]
  refine ⟨?_, ?_, ?_⟩
  · simpa using clientRun_retried_outcome server refreshServer
      { access := some rr.access, refresh := st.refresh }
      { target := req.target, authHeader := some ("Bearer " ++ rr.access),
        retryFlag := true } 401 rfl (by rw [requestHeader_after_refresh, hretry])
  · simpa using clientRun_retried_refreshCalls server refreshServer
      { access := some rr.access, refresh := st.refresh }
      { target := req.target, authHeader := some ("Bearer " ++ rr.access),
        retryFlag := true } rfl
  · simp [clientRun_retried_sends server refreshServer
      { access := some rr.access, refresh := st.refresh }
      { target := req.target, authHeader := some ("Bearer " ++ rr.access),
        retryFlag := true } rfl]

/-- General fact: after a fresh request is rejected 401 and the refresh
succeeds, the final token store holds the new access token and the old,
untouched refresh token, whatever the retry returns. -/
theorem clientRun_refresh_store (server : String → Option String → SendResult)
    (refreshServer : Option String → Option RefreshResp) (st : Store) (req : Req)
    (rr : RefreshResp)
    (hfresh : req.retryFlag = false)
    (h401 : server req.target (requestHeader st req) = SendResult.status 401)
    (href : refreshServer st.refresh = some rr) :
    (clientRun server refreshServer st req).store =
      { access := some rr.access, refresh := st.refresh } := by
  rw [clientRun_401_refresh_ok server refreshServer st req rr hfresh h401 href]
  simpa using clientRun_retried_store server refreshServer
    { access := some rr.access, refresh := st.refresh }
    { target := req.target, authHeader := some ("Bearer " ++ rr.access),
      retryFlag := true } rfl

/-- Claim C3, counterexample: with a server that answers 401 to every send and
a refresh that succeeds, the call settles as the second 401 error passed
through, not as the session-expired rejection, and the token store is not
cleared. The claim as stated, that a twice-unauthorized request fails with
SessionExpired, is therefore false on the code. -/
theorem double_unauthorized_not_session_expired :
    (clientRun demoServer401 demoRefreshOk demoStore demoReq).outcome =
      Outcome.httpError 401 ∧
    (clientRun demoServer401 demoRefreshOk demoStore demoReq).outcome ≠
      Outcome.sessionExpired ∧
    (clientRun demoServer401 demoRefreshOk demoStore demoReq).store.access =
      some "A2" := by
  have h1 := clientRun_double401_facts demoServer401 demoRefreshOk demoStore demoReq
    { access := "A2", refresh := none } rfl (by decide) (by decide) (by decide)
  have h2 := clientRun_refresh_store demoServer401 demoRefreshOk demoStore demoReq
    { access := "A2", refresh := none } rfl (by decide) (by decide)
  refine ⟨h1.1, ?_, ?_⟩
  · rw [h1.1]
    decide
  · rw [h2]

/-- Claim C3 amended: a request that is rejected 401 twice in a row (the
post-refresh retry also 401) fails with the second Unauthorized error passed
through unchanged, after exactly one refresh attempt and one retry; a second
refresh-and-retry cycle is never triggered, and the store keeps the refreshed
tokens. -/
theorem double_unauthorized_passes_error (server : String → Option String → SendResult)
    (refreshServer : Option String → Option RefreshResp) (st : Store) (req : Req)
    (rr : RefreshResp)
    (hfresh : req.retryFlag = false)
    (h401 : server req.target (requestHeader st req) = SendResult.status 401)
    (href : refreshServer st.refresh = some rr)
    (hretry : server req.target (some ("Bearer " ++ rr.access)) =
      SendResult.status 401) :
    (clientRun server refreshServer st req).outcome = Outcome.httpError 401 ∧
    (clientRun server refreshServer st req).refreshCalls = 1 ∧
    (clientRun server refreshServer st req).sends.length = 2 :=
  clientRun_double401_facts server refreshServer st req rr hfresh h401 href hretry

/-- Concrete instance of double_unauthorized_passes_error. -/
theorem double_unauthorized_passes_error_witness :
    (clientRun demoServer401 demoRefreshOk demoStore demoReq).outcome =
      Outcome.httpError 401 ∧
    (clientRun demoServer401 demoRefreshOk demoStore demoReq).refreshCalls = 1 ∧
    (clientRun demoServer401 demoRefreshOk demoStore demoReq).sends.length = 2 :=
  double_unauthorized_passes_error demoServer401 demoRefreshOk demoStore demoReq
    { access := "A2", refresh := none } rfl (by decide) (by decide) (by decide)

/-- Claim C4: whenever the refresh exchange of a fresh 401-rejected request
fails, the call settles on the session-expired path (both tokens removed,
browser redirected to the unauthenticated entry point, promise rejected with
the refresh error) and the store afterwards holds neither token. -/
theorem refresh_failure_session_expired (server : String → Option String → SendResult)
    (refreshServer : Option String → Option RefreshResp) (st : Store) (req : Req)
    (hfresh : req.retryFlag = false)
    (h401 : server req.target (requestHeader st req) = SendResult.status 401)
    (hfail : refreshServer st.refresh = none) :
    (clientRun server refreshServer st req).outcome = Outcome.sessionExpired ∧
    (clientRun server refreshServer st req).store.access = none ∧
    (clientRun server refreshServer st req).store.refresh = none ∧
    (clientRun server refreshServer st req).redirected = true := by
  rw [clientRun]
  rw [h401]
  simp [hfresh, hfail]

/-- Concrete instance of refresh_failure_session_expired: scenario B. -/
theorem refresh_failure_session_expired_witness :
    (clientRun demoServerA demoRefreshFail demoStore demoReq).outcome =
      Outcome.sessionExpired ∧
    (clientRun demoServerA demoRefreshFail demoStore demoReq).store.access = none ∧
    (clientRun demoServerA demoRefreshFail demoStore demoReq).store.refresh = none ∧
    (clientRun demoServerA demoRefreshFail demoStore demoReq).redirected = true :=
  refresh_failure_session_expired demoServerA demoRefreshFail demoStore demoReq
    rfl (by decide) (by decide)

/-- Claim C5, counterexample: when the refresh response carries a rotated
refresh token R2, the code stores only the new access token; the stored
refresh token stays R1, so the store pairs the new access token with the old
refresh token. The claim that the stored refresh value is replaced as well is
therefore false on the code. -/
theorem rotated_refresh_not_stored :
    (clientRun demoServerA demoRefreshRotate demoStore demoReq).store.access =
      some "A2" ∧
    (clientRun demoServerA demoRefreshRotate demoStore demoReq).store.refresh =
      some "R1" ∧
    (clientRun demoServerA demoRefreshRotate demoStore demoReq).store.refresh ≠
      some "R2" := by
  have h2 := clientRun_refresh_store demoServerA demoRefreshRotate demoStore demoReq
    { access := "A2", refresh := some "R2" } rfl (by decide) (by decide)
  refine ⟨?_, ?_, ?_⟩
  · rw [h2]
  · rw [h2]
    rfl
  · rw [h2]
    decide

/-- Claim C5 amended: on refresh success the store is updated with the new
access token only; the stored refresh token is left exactly as it was, even
when the refresh response carries a rotated refresh token, which the code
never reads. -/
theorem refresh_success_updates_only_access (server : String → Option String → SendResult)
    (refreshServer : Option String → Option RefreshResp) (st : Store) (req : Req)
    (rr : RefreshResp)
    (hfresh : req.retryFlag = false)
    (h401 : server req.target (requestHeader st req) = SendResult.status 401)
    (href : refreshServer st.refresh = some rr) :
    (clientRun server refreshServer st req).store =
      { access := some rr.access, refresh := st.refresh } :=
  clientRun_refresh_store server refreshServer st req rr hfresh h401 href

/-- Concrete instance of refresh_success_updates_only_access. -/
theorem refresh_success_updates_only_access_witness :
    (clientRun demoServerA demoRefreshRotate demoStore demoReq).store =
      { access := some "A2", refresh := some "R1" } :=
  refresh_success_updates_only_access demoServerA demoRefreshRotate demoStore demoReq
    { access := "A2", refresh := some "R2" } rfl (by decide) (by decide)

/-- The response-interceptor error handler for one request that was rejected
401 with its retry marker unset, exactly as written in source lines 40 to 58:
the marker is set, the stored refresh token is posted to the refresh endpoint
with no coordination whatsoever with other in-flight handlers; on success the
new access token is stored and the request resent through the client, on
failure both tokens are removed, the browser redirected and the refresh error
rejected. -/
def handle401 (server : String → Option String → SendResult)
    (refreshServer : Option String → Option RefreshResp)
    (st : Store) (req : Req) : RunResult :=
  match refreshServer st.refresh with
  | some rr =>
      let res := clientRun server refreshServer
        { access := some rr.access, refresh := st.refresh }
        { target := req.target, authHeader := some ("Bearer " ++ rr.access),
          retryFlag := true }
      { res with refreshCalls := res.refreshCalls + 1 }
  | none =>
      { outcome := Outcome.sessionExpired,
        store := { access := none, refresh := none },
        sends := [], refreshCalls := 1, redirected := true }

/-- Settling of one request of a burst once its initial response is known:
fulfilled and network-failed requests settle at once; a 401 response of a
fresh request runs the error handler above; every other rejection is passed
through. -/
def handlerStep (server : String → Option String → SendResult)
    (refreshServer : Option String → Option RefreshResp)
    (st : Store) (req : Req) (r : SendResult) : RunResult :=
  match r with
  | SendResult.ok b =>
      { outcome := Outcome.ok b, store := st, sends := [], refreshCalls := 0,
        redirected := false }
  | SendResult.netErr =>
      { outcome := Outcome.networkError, store := st, sends := [],
        refreshCalls := 0, redirected := false }
  | SendResult.status code =>
      if code = 401 ∧ req.retryFlag = false then handle401 server refreshServer st req
      else
        { outcome := Outcome.httpError code, store := st, sends := [],
          refreshCalls := 0, redirected := false }

/-- Aggregate observation of a burst of concurrent requests: the final shared
token store and, per request in order, everything its handler observed (its
outcome, its refresh calls, and the sends it performed after the initial
burst-phase send). -/
structure BurstResult where
  store : Store
  results : List RunResult
deriving DecidableEq

/-- The error handlers of a burst run to completion one after the other on the
single-threaded event loop, threading the shared token store. -/
def burstRun (server : String → Option String → SendResult)
    (refreshServer : Option String → Option RefreshResp) :
    List (Req × SendResult) → Store → BurstResult
  | [], st => { store := st, results := [] }
  | (req, r) :: rest, st =>
      let res := handlerStep server refreshServer st req r
      let b := burstRun server refreshServer rest res.store
      { store := b.store, results := res :: b.results }

/-- A burst of concurrent requests: every request is first sent with the
header derived from the shared store as it stands before any of them fails
(they all receive their responses at nearly the same time), then the response
interceptor handles each rejection in turn. -/
def burst (server : String → Option String → SendResult)
    (refreshServer : Option String → Option RefreshResp)
    (st : Store) (reqs : List Req) : BurstResult :=
  burstRun server refreshServer
    (reqs.map (fun req => (req, server req.target (requestHeader st req)))) st

/-- Full characterisation of a resent request (retry marker set): it performs
exactly one send, maps the response of that single send straight to its
outcome, issues no refresh call, touches neither the store nor the browser
location. -/
theorem clientRun_retried_spec (server : String → Option String → SendResult)
    (refreshServer : Option String → Option RefreshResp) (st : Store) (req : Req)
    (h : req.retryFlag = true) :
    clientRun server refreshServer st req =
      { outcome :=
          match server req.target (requestHeader st req) with
          | SendResult.ok b => Outcome.ok b
          | SendResult.status c => Outcome.httpError c
          | SendResult.netErr => Outcome.networkError,
        store := st,
        sends := [(req.target, requestHeader st req)],
        refreshCalls := 0, redirected := false } := by
  rw [clientRun]
  cases server req.target (requestHeader st req) <;> simp [h]

/-- A request of a burst settled consistently with the outcome of its own
refresh call: it issued exactly one refresh call, and either that refresh
failed and the request rejected on the session-expired path with no resend, or
the refresh produced a response rr and the request performed exactly one
resend carrying Bearer of the new access token and settled exactly as the
server answered that resend. -/
def settledPerOwnRefresh (server : String → Option String → SendResult)
    (refreshServer : Option String → Option RefreshResp) (r : RunResult) : Prop :=
  r.refreshCalls = 1 ∧
  (((∃ tok : Option String, refreshServer tok = none) ∧
      r.outcome = Outcome.sessionExpired ∧ r.sends = [] ∧ r.redirected = true) ∨
   (∃ rr : RefreshResp, ∃ tok : Option String, ∃ target : String,
      refreshServer tok = some rr ∧
      r.sends = [(target, some ("Bearer " ++ rr.access))] ∧
      r.outcome =
        (match server target (some ("Bearer " ++ rr.access)) with
         | SendResult.ok b => Outcome.ok b
         | SendResult.status c => Outcome.httpError c
         | SendResult.netErr => Outcome.networkError) ∧
      r.redirected = false))

/-- Each handler of a 401-rejected fresh request settles consistently with its
own refresh call and resends at most once. -/
theorem handle401_settles (server : String → Option String → SendResult)
    (refreshServer : Option String → Option RefreshResp) (st : Store) (req : Req) :
    settledPerOwnRefresh server refreshServer
      (handle401 server refreshServer st req) ∧
    (handle401 server refreshServer st req).sends.length ≤ 1 := by
  unfold handle401
  cases h : refreshServer st.refresh with
  | none =>
      exact ⟨⟨rfl, Or.inl ⟨⟨st.refresh, h⟩, rfl, rfl, rfl⟩⟩, by simp⟩
  | some rr =>
      dsimp only
      rw [clientRun_retried_spec server refreshServer
        { access := some rr.access, refresh := st.refresh }
        { target := req.target, authHeader := some ("Bearer " ++ rr.access),
          retryFlag := true } rfl]
      refine ⟨⟨by simp, Or.inr ⟨rr, st.refresh, req.target, h, ?_, ?_, rfl⟩⟩, by simp⟩
      · simp [requestHeader]
      · simp [requestHeader]

/-- The fold of the handlers over a burst whose requests all were rejected
401: one result per request, each settled per its own refresh call with at
most one resend. -/
theorem burstRun_all401_settles (server : String → Option String → SendResult)
    (refreshServer : Option String → Option RefreshResp)
    (pairs : List (Req × SendResult)) :
    ∀ st : Store,
      (∀ p ∈ pairs, p.1.retryFlag = false ∧ p.2 = SendResult.status 401) →
      (burstRun server refreshServer pairs st).results.length = pairs.length ∧
      ∀ r ∈ (burstRun server refreshServer pairs st).results,
        settledPerOwnRefresh server refreshServer r ∧ r.sends.length ≤ 1 := by
  induction pairs with
  | nil =>
      intro st _
      exact ⟨rfl, fun r hr => absurd hr (List.not_mem_nil r)⟩
  | cons p rest ih =>
      intro st h
      obtain ⟨h1, h2⟩ := h p (List.mem_cons_self p rest)
      obtain ⟨rq, r0⟩ := p
      simp only at h1 h2
      subst h2
      have hstep : handlerStep server refreshServer st rq (SendResult.status 401) =
          handle401 server refreshServer st rq := by
        unfold handlerStep
        simp [h1]
      have hrest := ih (handlerStep server refreshServer st rq
          (SendResult.status 401)).store
        (fun q hq => h q (List.mem_cons_of_mem _ hq))
      constructor
      · simp only [burstRun, List.length_cons]
        simp [hrest.1]
      · intro r hr
        simp only [burstRun] at hr
        rcases List.mem_cons.mp hr with hr1 | hr2
        · subst hr1
          rw [hstep]
          exact handle401_settles server refreshServer st rq
        · exact hrest.2 r hr2

/-- Wrapper of burstRun_all401_settles at the burst itself. -/
theorem burst_all401_settles (server : String → Option String → SendResult)
    (refreshServer : Option String → Option RefreshResp) (st : Store)
    (reqs : List Req)
    (h : ∀ req ∈ reqs, req.retryFlag = false ∧
         server req.target (requestHeader st req) = SendResult.status 401) :
    (burst server refreshServer st reqs).results.length = reqs.length ∧
    ∀ r ∈ (burst server refreshServer st reqs).results,
      settledPerOwnRefresh server refreshServer r ∧ r.sends.length ≤ 1 := by
  have hp : ∀ p ∈ reqs.map (fun req => (req, server req.target (requestHeader st req))),
      p.1.retryFlag = false ∧ p.2 = SendResult.status 401 := by
    intro p hp
    obtain ⟨req, hreq, rfl⟩ := List.mem_map.mp hp
    exact ⟨(h req hreq).1, (h req hreq).2⟩
  have hb := burstRun_all401_settles server refreshServer
    (reqs.map (fun req => (req, server req.target (requestHeader st req)))) st hp
  constructor
  · have hlen := hb.1
    rw [List.length_map] at hlen
    exact hlen
  · exact hb.2

/-- A map that is constantly one sums to the length. -/
theorem sum_map_ones {α : Type} (f : α → Nat) :
    ∀ l : List α, (∀ x ∈ l, f x = 1) → (l.map f).sum = l.length := by
  intro l
  induction l with
  | nil => intro _; rfl
  | cons x xs ih =>
      intro h
      simp only [List.map_cons, List.sum_cons, List.length_cons,
        h x (List.mem_cons_self x xs),
        ih (fun y hy => h y (List.mem_cons_of_mem x hy))]
      omega

/-- Claim C1, counterexample: two concurrent requests that both receive 401 at
nearly the same time issue two refresh calls, not exactly one: the interceptor
has no single-flight coordination, each rejected request posts to the refresh
endpoint on its own. -/
theorem burst_two_requests_two_refreshes :
    ((burst demoServerA demoRefreshOk demoStore [demoReq, demoReq]).results.map
      (fun r => r.refreshCalls)).sum = 2 ∧
    ((burst demoServerA demoRefreshOk demoStore [demoReq, demoReq]).results.map
      (fun r => r.refreshCalls)).sum ≠ 1 := by
  have hb := burst_all401_settles demoServerA demoRefreshOk demoStore
    [demoReq, demoReq] (by decide)
  have hsum := sum_map_ones (fun r => r.refreshCalls)
    (burst demoServerA demoRefreshOk demoStore [demoReq, demoReq]).results
    (fun r hr => (hb.2 r hr).1.1)
  rw [hsum, hb.1]
  exact ⟨rfl, by decide⟩

/-- Claim C1 amended: for a burst of N concurrently failing fresh requests the
interceptor issues one refresh call per request, N in total; every request
completes (one result each); each request is resent at most once after its
single burst-phase send, so at most two sends per request in total; and each
request settles consistently with the outcome of its own refresh call: on
refresh failure it rejects on the session-expired path with no resend, on
refresh success it settles exactly as the server answers its single resend
carrying the refreshed access token. -/
theorem burst_refresh_per_request (server : String → Option String → SendResult)
    (refreshServer : Option String → Option RefreshResp) (st : Store)
    (reqs : List Req)
    (h : ∀ req ∈ reqs, req.retryFlag = false ∧
         server req.target (requestHeader st req) = SendResult.status 401) :
    (burst server refreshServer st reqs).results.length = reqs.length ∧
    ((burst server refreshServer st reqs).results.map
      (fun r => r.refreshCalls)).sum = reqs.length ∧
    ∀ r ∈ (burst server refreshServer st reqs).results,
      r.refreshCalls = 1 ∧ r.sends.length ≤ 1 ∧
      settledPerOwnRefresh server refreshServer r := by
  have hb := burst_all401_settles server refreshServer st reqs h
  refine ⟨hb.1, ?_, ?_⟩
  · have hsum := sum_map_ones (fun r => r.refreshCalls)
      (burst server refreshServer st reqs).results
      (fun r hr => (hb.2 r hr).1.1)
    rw [hsum, hb.1]
  · exact fun r hr => ⟨(hb.2 r hr).1.1, (hb.2 r hr).2, (hb.2 r hr).1⟩

/-- Concrete instance of burst_refresh_per_request at a three-request burst. -/
theorem burst_refresh_per_request_witness :
    (burst demoServerA demoRefreshOk demoStore
      [demoReq, demoReq, demoReq]).results.length = 3 ∧
    ((burst demoServerA demoRefreshOk demoStore
      [demoReq, demoReq, demoReq]).results.map (fun r => r.refreshCalls)).sum = 3 :=
  ⟨(burst_refresh_per_request demoServerA demoRefreshOk demoStore
      [demoReq, demoReq, demoReq] (by decide)).1,
   (burst_refresh_per_request demoServerA demoRefreshOk demoStore
      [demoReq, demoReq, demoReq] (by decide)).2.1⟩

end ApiClient

namespace WebSocketHook

/-
Model of src/frontend/src/hooks/useWebSocket.ts.

The hook is callback-driven JavaScript: the connect callback captures the
render values of isAuthenticated and reconnectCount; the handlers it installs
on the WebSocket it creates, and the reconnect timeout those handlers
schedule, close over those same captured values and over the same connect
closure. A later re-render produces a new connect closure, but handlers and
timers already installed keep the values they captured. The model makes the
captured values explicit: every created socket and every scheduled timer
records the cap (captured reconnectCount) and auth (captured isAuthenticated)
of the closure that created it, and the close handler and the timer callback
read those recorded values, while setIsConnected and the functional updater
passed to setReconnectCount act on the current state cells. The fixed
reconnect delay only determines when a timer fires, which the event list
already expresses, so the model does not carry the delay value.
-/

/-- A WebSocket created by one call of the connect closure, together with the
values that closure had captured. -/
structure SocketRec where
  id : Nat
  cap : Nat
  auth : Bool
deriving DecidableEq

/-- A reconnect timeout scheduled by a close handler, together with the values
captured by the closure the timeout callback will invoke. -/
structure TimerRec where
  id : Nat
  cap : Nat
  auth : Bool
deriving DecidableEq

/-- The observable state of one hook instance: the two state cells, the two
refs, bookkeeping of every socket created (connection attempts), every close
call issued, every close event already handled, and a count of reconnections
scheduled so far. -/
structure Channel where
  isConnected : Bool
  reconnectCount : Nat
  wsRef : Option Nat
  timeoutRef : Option Nat
  timers : List TimerRec
  sockets : List SocketRec
  closeCalled : List Nat
  closedDone : List Nat
  nextSocketId : Nat
  nextTimerId : Nat
  scheduled : Nat
deriving DecidableEq

/-- A hook instance before any connect call. -/
def Channel.init : Channel :=
  { isConnected := false, reconnectCount := 0, wsRef := none, timeoutRef := none,
    timers := [], sockets := [], closeCalled := [], closedDone := [],
    nextSocketId := 0, nextTimerId := 0, scheduled := 0 }

/-- The connect callback, lines 29 to 78: a no-op when the captured
isAuthenticated is false; otherwise it closes the socket currently held by
wsRef if there is one, constructs a new WebSocket whose handlers capture the
closure's cap and auth, and stores it in wsRef. -/
def connect (c : Channel) (auth : Bool) (cap : Nat) : Channel :=
  if auth then
    let c1 :=
      match c.wsRef with
      | some sid => { c with closeCalled := c.closeCalled ++ [sid] }
      | none => c
    { c1 with
      wsRef := some c1.nextSocketId,
      sockets := c1.sockets ++ [{ id := c1.nextSocketId, cap := cap, auth := auth }],
      nextSocketId := c1.nextSocketId + 1 }
  else c

/-- The open handler, lines 42 to 47: mark connected, reset the
reconnectCount state cell to zero, invoke onConnect. -/
def onopen (c : Channel) : Channel :=
  { c with isConnected := true, reconnectCount := 0 }

/-- The close handler of socket s, lines 62 to 75: mark disconnected, invoke
onDisconnect, and, if the reconnectCount the handler closure captured is below
maxReconnectAttempts, schedule a reconnect timeout and store its id in
timeoutRef. Marking the close event handled is the event bookkeeping of the
model. -/
def onclose (maxR : Nat) (c : Channel) (s : SocketRec) : Channel :=
  let c1 := { c with isConnected := false, closedDone := c.closedDone ++ [s.id] }
  if s.cap < maxR then
    { c1 with
      timers := c1.timers ++ [{ id := c1.nextTimerId, cap := s.cap, auth := s.auth }],
      timeoutRef := some c1.nextTimerId,
      nextTimerId := c1.nextTimerId + 1,
      scheduled := c1.scheduled + 1 }
  else c1

/-- The timeout callback scheduled at line 69: bump the reconnectCount state
cell through the functional updater, then call the connect closure the
handler had captured. The caller removes the fired timer. -/
def timerFire (c : Channel) (t : TimerRec) : Channel :=
  connect { c with reconnectCount := c.reconnectCount + 1 } t.auth t.cap

/-- The disconnect callback, lines 80 to 88: clear the timeout currently
referenced by timeoutRef if any, then close the socket held by wsRef and null
the ref. -/
def disconnect (c : Channel) : Channel :=
  let c1 :=
    match c.timeoutRef with
    | some tid => { c with timers := c.timers.filter (fun t => t.id != tid) }
    | none => c
  match c1.wsRef with
  | some sid => { c1 with closeCalled := c1.closeCalled ++ [sid], wsRef := none }
  | none => c1

/-- The events the environment can deliver to one hook instance: a call of a
connect closure carrying its captured values (the mount effect or a manual
call), the open or close event of a created socket, the firing of a pending
reconnect timer, and a disconnect call. -/
inductive Ev where
  | connectCall (auth : Bool) (cap : Nat)
  | openEv (sid : Nat)
  | closeEv (sid : Nat)
  | fireEv (tid : Nat)
  | disconnectCall
deriving DecidableEq

/-- One event dispatched against the current state. An open event is delivered
only for a socket that exists and was neither explicitly closed nor already
closed; a close event is delivered at most once per socket; a timer fires only
while pending. -/
def step (maxR : Nat) (c : Channel) (e : Ev) : Channel :=
  match e with
  | Ev.connectCall auth cap => connect c auth cap
  | Ev.openEv sid =>
      match c.sockets.find? (fun s => s.id == sid) with
      | some _ =>
          if sid ∈ c.closeCalled ∨ sid ∈ c.closedDone then c else onopen c
      | none => c
  | Ev.closeEv sid =>
      match c.sockets.find? (fun s => s.id == sid) with
      | some s => if sid ∈ c.closedDone then c else onclose maxR c s
      | none => c
  | Ev.fireEv tid =>
      match c.timers.find? (fun t => t.id == tid) with
      | some t => timerFire { c with timers := c.timers.filter (fun u => u.id != tid) } t
      | none => c
  | Ev.disconnectCall => disconnect c

/-- A run of the hook: the events delivered in order, starting before any
connect call. -/
def run (maxR : Nat) (evs : List Ev) : Channel :=
  evs.foldl (step maxR) Channel.init

/-- The message handler, lines 49 to 56, parameterised by the parse of the raw
payload (JSON.parse wrapped in try): on parse success the structured message
is handed to onMessage, on parse failure one error is reported and the message
dropped. The handler touches no hook state either way. The triple returned is
the state afterwards, the list of onMessage invocations and the number of
parse failures reported. -/
def onmessageRun {α : Type} (parse : String → Option α) (payload : String)
    (c : Channel) : Channel × List α × Nat :=
  match parse payload with
  | some m => (c, [m], 0)
  | none => (c, [], 1)

/-- Scenario C events: the mount effect connects with captured count 0; every
attempt fails immediately (its close event arrives), and each scheduled timer
fires. Every socket of the chain is created by the connect closure the first
close handler captured, so every handler compares the captured count 0 against
the cap. -/
def failEvs : List Ev :=
  [Ev.connectCall true 0, Ev.closeEv 0, Ev.fireEv 0, Ev.closeEv 1, Ev.fireEv 1,
   Ev.closeEv 2, Ev.fireEv 2, Ev.closeEv 3, Ev.fireEv 3]

/-- Claim C6, failing run: with maxReconnectAttempts three and every attempt
failing immediately, the close handlers compare their captured reconnectCount,
which stays zero along the stale closure chain, against the cap, so a fourth
reconnect is scheduled and fired: four reconnections scheduled, five
connection attempts, and the reconnectCount state cell past the cap, where the
claim demands at most three scheduled retries, four attempts, and a count that
never exceeds the cap. -/
theorem stale_cap_unbounded_reconnect :
    (run 3 failEvs).scheduled = 4 ∧
    (run 3 failEvs).nextSocketId = 5 ∧
    3 < (run 3 failEvs).reconnectCount := by
  decide

/-- Scenario D events: connect, successful open, a disconnect call, then the
close event of the closed socket arrives, and the timer the close handler
scheduled fires. -/
def disconnectEvs : List Ev :=
  [Ev.connectCall true 0, Ev.openEv 0, Ev.disconnectCall, Ev.closeEv 0, Ev.fireEv 0]

/-- Claim C7, failing run: after a caller-initiated disconnect of an open
channel, the close event of the very socket disconnect closed still reaches
the ordinary close handler, which has no notion of a caller-initiated close
and schedules a reconnection, which then fires and opens a second socket: one
reconnection scheduled and a new connection attempt, where the claim demands
that none is ever scheduled after disconnect. -/
theorem reconnect_scheduled_after_disconnect :
    (run 10 disconnectEvs).scheduled = 1 ∧
    (run 10 disconnectEvs).wsRef = some 1 ∧
    (run 10 disconnectEvs).nextSocketId = 2 := by
  decide

/-- Claim C8: for every inbound raw payload the parse rejects, the message
handler reports exactly one failure, never invokes onMessage, drops the
message, and leaves the hook state, its connection status included, exactly as
it was. -/
theorem malformed_message_dropped {α : Type} (parse : String → Option α)
    (payload : String) (c : Channel) (h : parse payload = none) :
    onmessageRun parse payload c = (c, [], 1) := by
  rw [onmessageRun, h]

/-- Concrete instance of malformed_message_dropped on an unparseable
payload. -/
theorem malformed_message_dropped_witness :
    onmessageRun (fun _ => (none : Option Nat)) "not json" Channel.init =
      (Channel.init, [], 1) :=
  malformed_message_dropped (fun _ => (none : Option Nat)) "not json"
    Channel.init rfl

/-- Claim C9: a connect call whose closure captured isAuthenticated false is a
complete no-op: no WebSocket is constructed, no state cell or ref changes, the
status stays exactly where it was. -/
theorem unauthenticated_connect_noop (c : Channel) (cap : Nat) :
    connect c false cap = c := rfl

/-- A socket that is still live: created, never explicitly closed, and whose
close event has not occurred. -/
def Live (c : Channel) (s : SocketRec) : Prop :=
  s ∈ c.sockets ∧ s.id ∉ c.closeCalled ∧ s.id ∉ c.closedDone

/-- Every live socket is the one wsRef holds, so there is at most one. -/
def OneLive (c : Channel) : Prop :=
  ∀ s : SocketRec, Live c s → c.wsRef = some s.id

/-- The connect callback preserves the single-live-socket property: it closes
the referenced socket before constructing the next one. -/
theorem oneLive_connect (c : Channel) (auth : Bool) (cap : Nat) (h : OneLive c) :
    OneLive (connect c auth cap) := by
  cases auth with
  | false => exact h
  | true =>
      intro s hs
      obtain ⟨hmem, hcc, hcd⟩ := hs
      cases hw : c.wsRef with
      | none =>
          simp only [connect, hw, if_true] at hmem hcc hcd ⊢
          rcases List.mem_append.mp hmem with hold | hnew
          · exact absurd (h s ⟨hold, hcc, hcd⟩) (by simp [hw])
          · simp only [List.mem_singleton] at hnew
            subst hnew
            rfl
      | some sid =>
          simp only [connect, hw, if_true] at hmem hcc hcd ⊢
          simp only [List.mem_append, List.mem_singleton, not_or] at hcc
          rcases List.mem_append.mp hmem with hold | hnew
          · have := h s ⟨hold, hcc.1, hcd⟩
            rw [hw] at this
            exact absurd (Option.some.inj this).symm hcc.2
          · simp only [List.mem_singleton] at hnew
            subst hnew
            rfl

/-- The close handler preserves the single-live-socket property: it only marks
the channel disconnected and may schedule a timer. -/
theorem oneLive_onclose (maxR : Nat) (c : Channel) (s0 : SocketRec)
    (h : OneLive c) : OneLive (onclose maxR c s0) := by
  intro s hs
  obtain ⟨hmem, hcc, hcd⟩ := hs
  by_cases hcap : s0.cap < maxR <;>
    simp only [onclose, hcap, if_true, if_false] at hmem hcc hcd ⊢ <;>
    simp only [List.mem_append, List.mem_singleton, not_or] at hcd <;>
    exact h s ⟨hmem, hcc, hcd.1⟩

/-- The disconnect callback preserves the single-live-socket property: it
closes the referenced socket and nulls the ref, leaving no live socket. -/
theorem oneLive_disconnect (c : Channel) (h : OneLive c) :
    OneLive (disconnect c) := by
  intro s hs
  obtain ⟨hmem, hcc, hcd⟩ := hs
  cases ht : c.timeoutRef with
  | none =>
      cases hw : c.wsRef with
      | none =>
          simp only [disconnect, ht, hw] at hmem hcc hcd ⊢
          exact hw ▸ h s ⟨hmem, hcc, hcd⟩
      | some sid =>
          simp only [disconnect, ht, hw] at hmem hcc hcd ⊢
          simp only [List.mem_append, List.mem_singleton, not_or] at hcc
          have := h s ⟨hmem, hcc.1, hcd⟩
          rw [hw] at this
          exact absurd (Option.some.inj this).symm hcc.2
  | some tid =>
      cases hw : c.wsRef with
      | none =>
          simp only [disconnect, ht, hw] at hmem hcc hcd ⊢
          exact hw ▸ h s ⟨hmem, hcc, hcd⟩
      | some sid =>
          simp only [disconnect, ht, hw] at hmem hcc hcd ⊢
          simp only [List.mem_append, List.mem_singleton, not_or] at hcc
          have := h s ⟨hmem, hcc.1, hcd⟩
          rw [hw] at this
          exact absurd (Option.some.inj this).symm hcc.2

/-- Every event preserves the single-live-socket property. -/
theorem oneLive_step (maxR : Nat) (c : Channel) (e : Ev) (h : OneLive c) :
    OneLive (step maxR c e) := by
  cases e with
  | connectCall auth cap => exact oneLive_connect c auth cap h
  | openEv sid =>
      simp only [step]
      split
      · split
        · exact h
        · exact fun s hs => h s hs
      · exact h
  | closeEv sid =>
      simp only [step]
      split
      · split
        · exact h
        · exact oneLive_onclose maxR c _ h
      · exact h
  | fireEv tid =>
      simp only [step]
      split
      · exact oneLive_connect _ _ _ (fun s hs => h s hs)
      · exact h
  | disconnectCall => exact oneLive_disconnect c h

/-- The single-live-socket property holds along every fold of events. -/
theorem oneLive_foldl (maxR : Nat) (evs : List Ev) :
    ∀ c : Channel, OneLive c → OneLive (evs.foldl (step maxR) c) := by
  induction evs with
  | nil => exact fun c h => h
  | cons e rest ih => exact fun c h => ih (step maxR c e) (oneLive_step maxR c e h)

/-- The single-live-socket property holds in every reachable state. -/
theorem oneLive_run (maxR : Nat) (evs : List Ev) : OneLive (run maxR evs) :=
  oneLive_foldl maxR evs Channel.init
    (fun s hs => absurd hs.1 (List.not_mem_nil s))

/-- Claim C10: a connect call finding an existing socket in wsRef closes it
before constructing the new one, and in every reachable state every socket
that is neither explicitly closed nor already closed is the single one wsRef
references, so a hook instance never accumulates several live sockets. -/
theorem single_socket_invariant :
    (∀ (c : Channel) (cap sid : Nat), c.wsRef = some sid →
      sid ∈ (connect c true cap).closeCalled) ∧
    (∀ (maxR : Nat) (evs : List Ev) (s : SocketRec),
      Live (run maxR evs) s → (run maxR evs).wsRef = some s.id) := by
  constructor
  · intro c cap sid hw
    simp [connect, hw]
  · exact fun maxR evs s hs => oneLive_run maxR evs s hs

/-- Concrete instance of single_socket_invariant: a connect call on a channel
holding socket zero closes it, and after a first connect the only live socket
is the referenced one. -/
theorem single_socket_invariant_witness :
    0 ∈ (connect { Channel.init with wsRef := some 0 } true 7).closeCalled ∧
    (run 10 [Ev.connectCall true 0]).wsRef = some 0 :=
  ⟨single_socket_invariant.1 { Channel.init with wsRef := some 0 } 7 0 rfl,
   single_socket_invariant.2 10 [Ev.connectCall true 0]
     { id := 0, cap := 0, auth := true } ⟨by decide, by decide, by decide⟩⟩

end WebSocketHook
